import Mathlib

/-!
Shallow embedding of `scripts/post_shop.py` (Fortnite shop fetch / normalize /
publish script).  Pure helper functions are translated directly; the two
upstream network sources are modelled by explicit outcome datatypes, and the
duck-typed Python values the script manipulates (possibly-missing dict keys,
`None`, ints, strings, truthiness-based `or` chains) are modelled by `Option`
and a small `PyVal` type.  All definitions are executable.
-/

/-- Model of a Python scalar value as used by the script for prices:
`None`, an `int`, or a `str`.  (JSON numbers are modelled as integers; the
script never does arithmetic on them, only truthiness tests and `str()`.) -/
inductive PyVal where
  | none : PyVal
  | int (n : Int) : PyVal
  | str (s : String) : PyVal
deriving DecidableEq, Repr

/-- Python truthiness of a `PyVal`: `None`, `0` and `""` are falsy. -/
def PyVal.truthy : PyVal → Bool
  | .none => false
  | .int n => n != 0
  | .str s => s != ""

/-- Python `a or b` on scalar values: `a` if truthy, else `b` (returned raw). -/
def pyOr (a b : PyVal) : PyVal := if a.truthy then a else b

/-- Python `str()` of a scalar value (`str(None) = "None"`). -/
def pyStr : PyVal → String
  | .none => "None"
  | .int n => toString n
  | .str s => s

/-- Truthiness of an optional string (`None` and `""` are falsy). -/
def optTruthy (o : Option String) : Bool :=
  match o with
  | some s => s != ""
  | _ => false

/-- Python `a or b` on possibly-missing strings: `a` if truthy, else `b` raw. -/
def pyOrStrRaw (a b : Option String) : Option String :=
  if optTruthy a then a else b

/-- Normalizes a possibly-missing string to `none` when falsy; models the
effect of a trailing `or None` / an `if x:` guard on the value. -/
def truthyOpt (o : Option String) : Option String :=
  if optTruthy o then o else Option.none

/-- Python `str.lstrip()` on the character list (strips leading whitespace). -/
def pyLstrip (s : String) : String := String.mk (s.toList.dropWhile Char.isWhitespace)

/-- Python `str.rstrip()` (strips trailing whitespace). -/
def pyRstrip (s : String) : String :=
  String.mk ((s.toList.reverse.dropWhile Char.isWhitespace).reverse)

/-- Python `str.strip()` (strips whitespace from both ends). -/
def pyStripWs (s : String) : String := pyRstrip (pyLstrip s)

/-- Python `str.strip(c)` for a single character `c`: removes every leading and
trailing occurrence of `c`. -/
def stripCharBoth (c : Char) (s : String) : String :=
  String.mk (((s.toList.dropWhile (· = c)).reverse.dropWhile (· = c)).reverse)

/-- Python slicing `s[:n]`. -/
def pyTake (n : Nat) (s : String) : String := String.mk (s.toList.take n)

/-- Whether `pat` occurs as a contiguous run inside `l`. -/
def isInfixB (pat : List Char) : List Char → Bool
  | [] => pat.isEmpty
  | x :: xs => pat.isPrefixOf (x :: xs) || isInfixB pat xs

/-- Python substring test `k in s` (code-point wise containment). -/
def pyContains (s k : String) : Bool := isInfixB k.toList s.toList

/-- Python `str.startswith(p)`. -/
def pyStartsWith (s p : String) : Bool := p.toList.isPrefixOf s.toList

/-- Python `str.lower()` restricted to ASCII letters (the only characters the
script's lowercase comparisons rely on). -/
def pyLower (s : String) : String := String.mk (s.toList.map Char.toLower)

/-- Splitting a character list at every occurrence of the character `c`
(Python `s.split(c)` semantics: `n` separators yield `n+1` parts, possibly
empty). -/
def splitOnChar (c : Char) : List Char → List (List Char)
  | [] => [[]]
  | x :: xs =>
    match splitOnChar c xs with
    | [] => [[x]]
    | h :: t => if x = c then [] :: h :: t else (x :: h) :: t

/-- Joining character-list parts with a separator character
(Python `c.join(parts)`). -/
def joinSepChar (c : Char) : List (List Char) → List Char
  | [] => []
  | [h] => h
  | h :: t => h ++ c :: joinSepChar c t

/-- Python `sep.join(parts)` for a one-character separator. -/
def joinSep (c : Char) (parts : List String) : String :=
  String.mk (joinSepChar c (parts.map String.toList))

/-- Python `s.split(sep, 1)[1]` for a one-character separator: everything
after the first occurrence of `sep`.  (The script only evaluates this under a
guard that guarantees the separator occurs.) -/
def afterFirstSep (sep : Char) (s : String) : String :=
  String.mk (joinSepChar sep ((splitOnChar sep s.toList).drop 1))

/-- Python `s.split(".")[-1]`: the part after the last dot (whole string when
no dot occurs). -/
def lastDotComponent (s : String) : String :=
  String.mk ((((splitOnChar '.' s.toList).getLast?).getD s.toList))

/-- Python `s.replace(pat, rep)` on character lists, replacing every
non-overlapping occurrence left to right; `fuel` bounds the recursion and is
instantiated with the list length (sufficient, since the script only replaces
non-empty patterns, each consuming at least one character). -/
def replaceFuel (pat rep : List Char) : Nat → List Char → List Char
  | _, [] => []
  | 0, l => l
  | fuel + 1, x :: xs =>
    if pat ≠ [] ∧ pat.isPrefixOf (x :: xs) then
      rep ++ replaceFuel pat rep fuel ((x :: xs).drop pat.length)
    else x :: replaceFuel pat rep fuel xs

/-- Python `s.replace(pat, rep)` for a non-empty pattern. -/
def pyReplace (s pat rep : String) : String :=
  String.mk (replaceFuel pat.toList rep.toList s.toList.length s.toList)

/-- Lexicographic comparison of character lists by code point, the order
Python uses to compare strings in `sorted(...)`. -/
def charListLe : List Char → List Char → Bool
  | [], _ => true
  | _ :: _, [] => false
  | a :: as, b :: bs => if a = b then charListLe as bs else decide (a.toNat < b.toNat)

/-- Python string comparison `a <= b` (code-point lexicographic). -/
def strLeB (a b : String) : Bool := charListLe a.toList b.toList

/-- Python `sorted(...)` on strings, realized as insertion sort over the
code-point order (strings admit no equal-but-distinct keys, so any correct
sort produces the same list as Python's stable sort). -/
def pySorted (ids : List String) : List String :=
  List.insertionSort (fun a b => strLeB a b = true) ids

/- ------------------ normalize_rarity (post_shop.py lines 17-32) ------------------ -/

/-- Model of the argument passed to `normalize_rarity`: Python `None`, a plain
string, or an object/dict.  For an object, the four candidate attributes
`value` / `api_value` / `apiValue` / `name` are modelled as optional strings
(absent attribute = `none`), and `reprStr` models `str(r)`, used when no
attribute yields a truthy value (this is also how a raw JSON dict behaves,
since dicts have none of those attributes). -/
inductive RarityIn where
  | pyNone : RarityIn
  | pyStr (s : String) : RarityIn
  | pyObj (value api_value apiValue nameAttr : Option String) (reprStr : String) : RarityIn
deriving DecidableEq, Repr

/-- The string `s` that `normalize_rarity` classifies: first truthy attribute
among `value`/`api_value`/`apiValue`/`name` (else `str(r)`), lowercased, and
reduced to the part after the last `"."` when a dot occurs.  `none` only for
Python `None` input. -/
def rarityExtract : RarityIn → Option String
  | .pyNone => Option.none
  | .pyStr s =>
    let s := pyLower s
    some (if pyContains s "." then lastDotComponent s else s)
  | .pyObj value api_value apiValue nameAttr reprStr =>
    let raw :=
      match truthyOpt value with
      | some v => v
      | _ =>
        match truthyOpt api_value with
        | some v => v
        | _ =>
          match truthyOpt apiValue with
          | some v => v
          | _ =>
            match truthyOpt nameAttr with
            | some v => v
            | _ => reprStr
    let s := pyLower raw
    some (if pyContains s "." then lastDotComponent s else s)

/-- The fixed priority order of canonical rarity tokens (line 29). -/
def RARITY_KEYS : List String := ["common", "uncommon", "rare", "epic", "legendary", "mythic"]

/-- `normalize_rarity` (lines 17-32): `None ↦ "common"`; otherwise the first
canonical token contained (as a substring) in the extracted string, else the
extracted string itself. -/
def normalize_rarity (r : RarityIn) : String :=
  match rarityExtract r with
  | Option.none => "common"
  | some s =>
    match RARITY_KEYS.find? (fun k => pyContains s k) with
    | some k => k
    | _ => s

/- ------------------ clean_url (post_shop.py lines 34-48) ------------------ -/

/-- Model of the argument passed to `clean_url`: Python `None`, a string, a
dict, or an object with a `url` attribute.  For the dict case, `url`/`icon`
model `u.get("url")`/`u.get("icon")`, `firstVal` models
`next(iter(u.values()), None)` and `isEmptyDict` its Python truthiness
(an empty dict is falsy). -/
inductive UrlIn where
  | pyNone : UrlIn
  | str (s : String) : UrlIn
  | dict (url icon firstVal : Option String) (isEmptyDict : Bool) : UrlIn
  | obj (url : String) : UrlIn
deriving DecidableEq, Repr

/-- Python falsiness of a `clean_url` argument (line 35 `if not u`). -/
def urlFalsy : UrlIn → Bool
  | .pyNone => true
  | .str s => s == ""
  | .dict _ _ _ isEmptyDict => isEmptyDict
  | .obj _ => false

/-- The string `str(u)` obtained after the unwrapping steps of `clean_url`
(lines 37-41): one level of dict indirection via
`u.get("url") or u.get("icon") or next(iter(u.values()), None)`, the `u.url`
attribute for objects, and `str(None) = "None"` when the dict chain yields
nothing. -/
def unwrapStr : UrlIn → String
  | .pyNone => "None"
  | .str s => s
  | .dict url icon firstVal _ => (pyOrStrRaw (pyOrStrRaw url icon) firstVal).getD "None"
  | .obj url => url

/-- The cleaning core of `clean_url` (lines 41-45) applied to the unwrapped
string: strip whitespace then surrounding `'` and `"` characters, drop a
leading `asset url=` / `asset_url=` key prefix (case-insensitive) and re-strip,
and promote a scheme-relative `//...` to `https://...`. -/
def cleanCore (s : String) : String :=
  let u := stripCharBoth (Char.ofNat 34) (stripCharBoth (Char.ofNat 39) (pyStripWs s))
  let u :=
    if pyStartsWith (pyLower u) "asset url=" || pyStartsWith (pyLower u) "asset_url=" then
      stripCharBoth (Char.ofNat 34) (stripCharBoth (Char.ofNat 39) (pyStripWs (afterFirstSep '=' u)))
    else u
  if pyStartsWith u "//" then "https:" ++ u else u

/-- Whether a cleaned URL carries an accepted scheme (line 46). -/
def schemeOk (s : String) : Bool := pyStartsWith s "http://" || pyStartsWith s "https://"

/-- `clean_url` (lines 34-48): `none` for falsy input, otherwise the cleaned
string when it starts with `http://` or `https://`, else `none`. -/
def clean_url (u : UrlIn) : Option String :=
  if urlFalsy u then Option.none
  else
    let c := cleanCore (unwrapStr u)
    if schemeOk c then some c else Option.none

/- ------------------ chunk_lines_into_tweets (post_shop.py lines 68-82) ------------------ -/

/-- One step of the accumulation loop of `chunk_lines_into_tweets`
(lines 73-79): append `line + "\n"` to the current chunk, flushing the current
chunk first when the addition would exceed the budget. -/
def chunkStep (max_chars : Nat) (acc : List String × String) (line : String) :
    List String × String :=
  let add := line ++ "\n"
  if max_chars < acc.2.length + add.length then (acc.1 ++ [pyRstrip acc.2], add)
  else (acc.1, acc.2 ++ add)

/-- `chunk_lines_into_tweets` (lines 68-82): a first chunk made of header and
footer truncated to the budget, then the lines packed greedily into further
chunks, flushing a final non-blank chunk. -/
def chunk_lines_into_tweets (header : String) (lines : List String) (footer : String)
    (max_chars : Nat := 270) : List String :=
  let base1 := pyRstrip header ++ "\n\n" ++ pyRstrip footer
  let res := lines.foldl (chunkStep max_chars) ([pyTake max_chars base1], "")
  if pyStripWs res.2 != "" then res.1 ++ [pyRstrip res.2] else res.1

/- ------------------ type, section, group, series helpers (lines 84-149) ------------------ -/

/-- `TYPE_MAP` (lines 86-104), as an ordered association list. -/
def TYPE_MAP : List (String × String) :=
  [("outfit", "traje"), ("emote", "gesto"), ("emoji", "gesto"),
   ("backpack", "mochila"), ("backbling", "mochila"), ("pickaxe", "pico"),
   ("glider", "ala_delta"), ("wrap", "envoltorio"), ("pet", "companero"),
   ("petcarrier", "companero"), ("companion", "companero"), ("music", "pista"),
   ("musicpack", "pista"), ("jam", "pista"), ("jamtrack", "pista"),
   ("festival_track", "pista"), ("loading_screen", "pantalla_carga")]

/-- Python `TYPE_MAP.get(k)`. -/
def TYPE_MAP_get (k : String) : Option String :=
  (TYPE_MAP.find? (fun p => p.1 == k)).map (·.2)

/-- `map_api_type` (lines 106-113): lowercase, strip API-specific spellings via
chained `replace`, then look the result (or its last dot component) up in
`TYPE_MAP`. -/
def map_api_type (v : Option String) : Option String :=
  match v with
  | some s =>
    if s = "" then Option.none
    else
      let t := pyReplace (pyLower s) "cosmetictype." ""
      let t := pyReplace (pyReplace (pyReplace (pyReplace (pyReplace t "athenacharacter"
        "outfit") "athenabackpack" "backpack") "weaponwrap" "wrap") "musicpack" "music")
        "loading" "loading_screen"
      pyOrStrRaw (TYPE_MAP_get t) (TYPE_MAP_get (lastDotComponent t))
  | _ => Option.none

/-- `infer_type_by_name` (lines 115-124): keyword groups checked in a fixed
priority order over the lowercased name, defaulting to `"traje"`.
(`(name or "").lower()` equals `name.lower()` for every string `name`.) -/
def infer_type_by_name (name : String) : String :=
  let n := pyLower name
  if ["compañero", "companero", "companion", "buddy", "pet"].any (fun k => pyContains n k) then
    "companero"
  else if ["pista", "jam", "track", "music", "música", "musica"].any (fun k => pyContains n k) then
    "pista"
  else if ["gesto", "emote", "baile", "dance"].any (fun k => pyContains n k) then "gesto"
  else if ["pico", "hacha", "pickaxe"].any (fun k => pyContains n k) then "pico"
  else if ["ala delta", "ala", "planeador", "glider"].any (fun k => pyContains n k) then
    "ala_delta"
  else if ["envoltorio", "wrap", "camo"].any (fun k => pyContains n k) then "envoltorio"
  else if ["mochila", "back bling", "back", "accesorio"].any (fun k => pyContains n k) then
    "mochila"
  else "traje"

/-- Model of the argument of `from_series`: `None`/falsy, an object with
`value`/`name` attributes (`getattr`-based branch), or a dict (attribute
lookups fail, the `isinstance(obj, dict)` branch applies). -/
inductive SeriesIn where
  | pyNone : SeriesIn
  | obj (value nameAttr : Option String) : SeriesIn
  | dict (value nameAttr : Option String) : SeriesIn
deriving DecidableEq, Repr

/-- `from_series` (lines 126-135). -/
def from_series : SeriesIn → Option String
  | .pyNone => Option.none
  | .obj value nameAttr =>
    match truthyOpt (pyOrStrRaw value nameAttr) with
    | some v => some v
    | _ => Option.none
  | .dict value nameAttr =>
    match truthyOpt value with
    | some v => some v
    | _ => nameAttr

/-- The section display-name table of `human_section` (lines 139-146). -/
def SECTION_MAP : List (String × String) :=
  [("featured", "Featured"), ("specialFeatured", "Special Featured"),
   ("specialDaily", "Special Daily"), ("daily", "Daily"), ("votes", "Votes"),
   ("voteWinners", "Vote Winners")]

/-- `human_section` (lines 137-146). -/
def human_section (key : Option String) : Option String :=
  match key with
  | some k => if k = "" then Option.none else some (((SECTION_MAP.find? (fun p => p.1 == k)).map (·.2)).getD k)
  | _ => Option.none

/-- Modelled from the spec: `safe_id` (lines 148-149) returns the first 16 hex
characters of the SHA-1 digest of the UTF-8 encoding of its argument
(`hashlib.sha1`, Python standard library, external to this repository).  The
claims depend only on `safe_id` being a deterministic function of its input
string, so the SHA-1 compression itself is modelled by a deterministic
executable hash rendered as 16 hex characters. -/
def sha1hex16 (s : String) : String :=
  let h := s.toList.foldl (fun h c => (h * 131 + c.toNat) % (2 ^ 64)) 5381
  let hex := Nat.toDigits 16 h
  String.mk (List.replicate (16 - hex.length) '0' ++ hex.take 16)

/-- `safe_id` (lines 148-149). -/
def safe_id (value_hint : String) : String := sha1hex16 value_hint

/- ------------------ shared output record types ------------------ -/

/-- One record of the flat projection (`items.append({...})`, lines 354-367
and 452-465). -/
structure FlatItem where
  id : String
  name : String
  img_url : String
  rarity : String
  price : PyVal
  expires : String
  type : String
  «section» : Option String
  group : Option String
  groupId : String
  groupPrice : PyVal
  series : Option String
deriving DecidableEq, Repr

/-- One member record of a group (`grp["items"].append({...})`, lines 346-353
and 444-451). -/
structure GroupItem where
  id : String
  name : String
  image : String
  rarity : String
  type : String
  price : PyVal
deriving DecidableEq, Repr

/-- One group record (lines 337-343 and 435-441).  Named `ShopGroup` here
because `Group` is taken by the mathematical library. -/
structure ShopGroup where
  id : String
  name : Option String
  price : PyVal
  expires : String
  items : List GroupItem
deriving DecidableEq, Repr

/-- The per-cosmetic intermediate dict (`tmp_items` elements, lines 324-332
and 422-430). -/
structure TmpItem where
  id : String
  name : String
  img_url : String
  rarity : String
  type : String
  series : Option String
  indiv_price : PyVal
deriving DecidableEq, Repr

/-- Python's `groups` dict keyed by `group_id` with insertion-order iteration,
modelled as an ordered association list.  `groups.get(group_id)` /
`groups[group_id] = {...}` / `grp["items"].append(...)` (lines 335-343,
433-441): an existing group keeps its position and metadata and has the new
member items appended; a fresh id appends a new group at the end. -/
def upsertGroup (gs : List ShopGroup) (gid : String) (gname : Option String) (gprice : PyVal)
    (gexpires : String) (newItems : List GroupItem) : List ShopGroup :=
  match gs with
  | [] => [{ id := gid, name := gname, price := gprice, expires := gexpires, items := newItems }]
  | g :: rest =>
    if g.id = gid then { g with items := g.items ++ newItems } :: rest
    else g :: upsertGroup rest gid gname gprice gexpires newItems

/-- `group_id` computation (lines 334 and 432): the upstream offer id when
truthy, else `safe_id` of the sorted contained item ids joined with `"|"`,
concatenated with the entry price and expiry (the f-string
`"|".join(sorted(ids_for_key)) + f"|{entry_price}|{expire_txt}"`). -/
def computeGroupId (offer : Option String) (ids : List String) (price : PyVal)
    (exp : String) : String :=
  match truthyOpt offer with
  | some o => o
  | _ =>
    safe_id (joinSep '|' (pySorted ids) ++ "|" ++ pyStr price ++ "|" ++ exp)

/-- The group item built from a tmp item (lines 346-353 / 444-451; identical
in both paths, the member price is the item's own `indiv_price`). -/
def mkGroupItem (ti : TmpItem) : GroupItem :=
  { id := ti.id, name := ti.name, image := ti.img_url, rarity := ti.rarity,
    type := ti.type, price := ti.indiv_price }

/- ------------------ fetch_shop_items, source B: raw requests (lines 377-468) ------------------ -/

/-- One cosmetic dict of a raw source-B entry (`entry["items"]` element).
`icon` models `(itm.get("images") or {}).get("icon")`, `typeValue`/`typeName`
model `(itm.get("type") or {}).get("value")`/`.get("name")`. -/
structure ItemB where
  id : Option String
  templateId : Option String
  name : Option String
  icon : Option String
  rarity : RarityIn
  series : SeriesIn
  typeValue : Option String
  typeName : Option String
  finalPrice : PyVal
  regularPrice : PyVal
  price : PyVal
deriving DecidableEq, Repr

/-- One raw source-B shop entry (a JSON dict).  `bundleName` models
`(entry.get("bundle") or {}).get("name")`. -/
structure EntryB where
  regularPrice : PyVal
  finalPrice : PyVal
  price : PyVal
  offerExpires : Option String
  expiresAt : Option String
  bundleName : Option String
  category : Option String
  devName : Option String
  offerId : Option String
  id : Option String
  items : List ItemB
deriving DecidableEq, Repr

/-- `entry_price` for source B (line 396):
`entry.get("regularPrice") or entry.get("finalPrice") or entry.get("price")`. -/
def entryPriceB (e : EntryB) : PyVal := pyOr (pyOr e.regularPrice e.finalPrice) e.price

/-- `expire_txt` for source B (line 397):
`entry.get("offerExpires") or entry.get("expiresAt") or "Próxima rotación"`. -/
def expireTxtB (e : EntryB) : String :=
  match truthyOpt e.offerExpires with
  | some s => s
  | _ =>
    match truthyOpt e.expiresAt with
    | some s => s
    | _ => "Próxima rotación"

/-- `group_name` for source B (line 400):
`bundle.get("name") or entry.get("category") or entry.get("devName") or None`. -/
def groupNameB (e : EntryB) : Option String :=
  truthyOpt (pyOrStrRaw (pyOrStrRaw e.bundleName e.category) e.devName)

/-- `offer_id` for source B (line 401): `entry.get("offerId") or entry.get("id")`. -/
def offerIdB (e : EntryB) : Option String := pyOrStrRaw e.offerId e.id

/-- `itm_id` for source B (line 407):
`itm.get("id") or itm.get("templateId") or itm.get("name")`. -/
def itmIdB (itm : ItemB) : Option String := pyOrStrRaw (pyOrStrRaw itm.id itm.templateId) itm.name

/-- `ids_for_key` for source B (lines 404-408): the truthy `itm_id` of every
cosmetic of the entry, in order, collected before the icon filter. -/
def idsForKeyB (items : List ItemB) : List String :=
  items.filterMap (fun itm => truthyOpt (itmIdB itm))

/-- The `clean_url` argument for a source-B cosmetic (line 409). -/
def mkUrlInB (icon : Option String) : UrlIn :=
  match icon with
  | some s => .str s
  | _ => .pyNone

/-- The `tmp_items` element built from one source-B cosmetic (lines 409-430):
`none` exactly when the icon does not survive `clean_url` (line 410-411
`continue`). -/
def tmpItemB (itm : ItemB) : Option TmpItem :=
  match clean_url (mkUrlInB itm.icon) with
  | some url =>
    let name := (truthyOpt itm.name).getD "Sin nombre"
    some { id := (truthyOpt (itmIdB itm)).getD (safe_id (name ++ url)),
           name := name, img_url := url,
           rarity := normalize_rarity itm.rarity,
           type := (truthyOpt (map_api_type (pyOrStrRaw itm.typeValue itm.typeName))).getD
             (infer_type_by_name name),
           series := from_series itm.series,
           indiv_price := pyOr (pyOr itm.finalPrice itm.regularPrice) itm.price }
  | _ => Option.none

/-- `group_id` for a source-B entry (line 432). -/
def groupIdB (e : EntryB) : String :=
  computeGroupId (offerIdB e) (idsForKeyB e.items) (entryPriceB e) (expireTxtB e)

/-- The flat record built from one surviving source-B cosmetic (lines 452-465).
The flat price is the item's own `indiv_price` when that is not `None`, else
the entry price (line 457). -/
def mkFlatB (sec : Option String) (e : EntryB) (ti : TmpItem) : FlatItem :=
  { id := ti.id, name := ti.name, img_url := ti.img_url, rarity := ti.rarity,
    price := if ti.indiv_price = PyVal.none then entryPriceB e else ti.indiv_price,
    expires := expireTxtB e, type := ti.type, «section» := sec, group := groupNameB e,
    groupId := groupIdB e, groupPrice := entryPriceB e, series := ti.series }

/-- Processing of one source-B entry (lines 395-465) on the shared
`(items, groups)` accumulators.  The source interleaves the flat append and the
group-member append per tmp item inside one loop; appending the whole mapped
lists is the same final state. -/
def processEntryB (sec : Option String) (acc : List FlatItem × List ShopGroup) (e : EntryB) :
    List FlatItem × List ShopGroup :=
  let tmp := e.items.filterMap tmpItemB
  (acc.1 ++ tmp.map (mkFlatB sec e),
   upsertGroup acc.2 (groupIdB e) (groupNameB e) (entryPriceB e) (expireTxtB e)
     (tmp.map mkGroupItem))

/-- The raw source-B shop payload (`data` object): the reported date and the
six optional sections, each an optional entry list.  `none` models both an
absent/falsy section (line 392-393 `continue`) and the `entries or []`
default (line 394). -/
structure ShopB where
  date : Option String
  featured : Option (List EntryB)
  specialFeatured : Option (List EntryB)
  specialDaily : Option (List EntryB)
  daily : Option (List EntryB)
  votes : Option (List EntryB)
  voteWinners : Option (List EntryB)
deriving DecidableEq, Repr

/-- The six section keys in iteration order (line 390). -/
def sectionsB (shop : ShopB) : List (String × Option (List EntryB)) :=
  [("featured", shop.featured), ("specialFeatured", shop.specialFeatured),
   ("specialDaily", shop.specialDaily), ("daily", shop.daily), ("votes", shop.votes),
   ("voteWinners", shop.voteWinners)]

/-- Processing of all source-B sections (lines 390-465) on the shared
accumulators, each entry tagged with `human_section(key)` (line 398). -/
def processShopB (shop : ShopB) (acc : List FlatItem × List ShopGroup) :
    List FlatItem × List ShopGroup :=
  (sectionsB shop).foldl
    (fun acc ks =>
      match ks.2 with
      | some entries => entries.foldl (processEntryB (human_section (some ks.1))) acc
      | _ => acc)
    acc

/- ------------------ fetch_shop_items, source A: typed client (lines 233-375) ------------------ -/

/-- The `type` attribute object of a typed-client cosmetic (line 317-319):
`getattr(t, "value", None) or getattr(t, "name", None)` feeds `map_api_type`.
`none` at the `ItemA` level also models the `except` path of lines 316-321. -/
structure TypeObjA where
  value : Option String
  nameAttr : Option String
deriving DecidableEq, Repr

/-- One typed-client cosmetic (lines 303-332).  `id`/`templateId` model the
`getattr` pair of line 304, `icon` the nested
`getattr(getattr(itm, "images", None), "icon", None)` of line 307 (an absent
attribute is `UrlIn.pyNone`), `name` line 311, and `rarity`/`series`/`type`
the attribute values fed to the shared helpers. -/
structure ItemA where
  id : Option String
  templateId : Option String
  icon : UrlIn
  name : Option String
  rarity : RarityIn
  series : SeriesIn
  type : Option TypeObjA
deriving DecidableEq, Repr

/-- The `section` attribute object of a typed-client entry (lines 279-281). -/
structure SecObjA where
  display_name : Option String
  nameAttr : Option String
deriving DecidableEq, Repr

/-- One typed-client shop entry.  `price` models the extracted `entry_price`
of lines 248-256 (attribute chain, `.final`/`.total` unwrapping and `str()`
coercion on external library objects); `rawExp` models `str(raw_exp)` for a
truthy expiry attribute chain (lines 258-269), `none` when the chain is falsy
or `str()` raised; `bundleName` models lines 282-285 (`none` unless a truthy
`bundle` with a `name` attribute is present); the three offer-id fields model
the `getattr` chain of line 288; `cosmetics` models the item list extraction
of lines 290-298. -/
structure EntryA where
  price : PyVal
  rawExp : Option String
  secObj : Option SecObjA
  bundleName : Option String
  offer_id : Option String
  offerId : Option String
  idAttr : Option String
  cosmetics : List ItemA
deriving DecidableEq, Repr

/-- `expire_txt` for source A (lines 266-275): the stringified expiry attribute
when available, else the shop-date-plus-one-day string `rota` (none when that
computation raised), else `"Próxima rotación"`. -/
def expireA (rota : Option String) (e : EntryA) : String :=
  match e.rawExp with
  | some s => s
  | _ => rota.getD "Próxima rotación"

/-- `section` for source A (lines 278-281). -/
def sectionA (e : EntryA) : Option String :=
  match e.secObj with
  | some so => pyOrStrRaw so.display_name so.nameAttr
  | _ => Option.none

/-- `offer_id` for source A (line 288). -/
def offerIdA (e : EntryA) : Option String :=
  pyOrStrRaw (pyOrStrRaw e.offer_id e.offerId) e.idAttr

/-- `itm_id` for source A (line 304). -/
def itmIdA (itm : ItemA) : Option String := pyOrStrRaw itm.id itm.templateId

/-- `ids_for_key` for source A (lines 301-305). -/
def idsForKeyA (cosmetics : List ItemA) : List String :=
  cosmetics.filterMap (fun itm => truthyOpt (itmIdA itm))

/-- The `tmp_items` element built from one typed-client cosmetic
(lines 303-332): `none` exactly when the icon does not survive `clean_url`
(lines 307-309 `continue`).  The library path never supplies an individual
price (line 331). -/
def tmpItemA (itm : ItemA) : Option TmpItem :=
  match clean_url itm.icon with
  | some url =>
    let name := (truthyOpt itm.name).getD "Sin nombre"
    some { id := (truthyOpt (itmIdA itm)).getD (safe_id (name ++ url)),
           name := name, img_url := url,
           rarity := normalize_rarity itm.rarity,
           type := (truthyOpt (match itm.type with
             | some t => map_api_type (pyOrStrRaw t.value t.nameAttr)
             | _ => Option.none)).getD (infer_type_by_name name),
           series := from_series itm.series,
           indiv_price := PyVal.none }
  | _ => Option.none

/-- `group_id` for a source-A entry (line 334). -/
def groupIdA (rota : Option String) (e : EntryA) : String :=
  computeGroupId (offerIdA e) (idsForKeyA e.cosmetics) e.price (expireA rota e)

/-- The flat record built from one surviving typed-client cosmetic
(lines 354-367).  The flat price is always the entry price (line 359). -/
def mkFlatA (rota : Option String) (e : EntryA) (ti : TmpItem) : FlatItem :=
  { id := ti.id, name := ti.name, img_url := ti.img_url, rarity := ti.rarity,
    price := e.price, expires := expireA rota e, type := ti.type,
    «section» := sectionA e, group := e.bundleName, groupId := groupIdA rota e,
    groupPrice := e.price, series := ti.series }

/-- Processing of one typed-client entry (lines 247-367) on the shared
accumulators. -/
def processEntryA (rota : Option String) (acc : List FlatItem × List ShopGroup) (e : EntryA) :
    List FlatItem × List ShopGroup :=
  let tmp := e.cosmetics.filterMap tmpItemA
  (acc.1 ++ tmp.map (mkFlatA rota e),
   upsertGroup acc.2 (groupIdA rota e) e.bundleName e.price (expireA rota e)
     (tmp.map mkGroupItem))

/-- One typed-client session: the shop date string (line 241-243), the
next-rotation fallback string `rota` (lines 271-275, `none` when the date
arithmetic raised), and the entries the client yielded. -/
structure ASession where
  date : Option String
  rota : Option String
  entries : List EntryA
deriving DecidableEq, Repr

/-- Processing of every yielded typed-client entry starting from the
freshly-initialized accumulators (lines 229-230, 246-367). -/
def runA (s : ASession) : List FlatItem × List ShopGroup :=
  s.entries.foldl (processEntryA s.rota) ([], [])

/- ------------------ fetch_shop_items: source selection (lines 222-474) ------------------ -/

/-- Outcome of the typed-client attempt.  `ok` models a fetch that completed
normally; `raise` models any exception out of the library (line 374), thrown
after the session's entries were already processed onto the shared
accumulators — `raise` with an empty entry list is a failure before any entry
was seen. -/
inductive AOutcome where
  | ok (s : ASession) : AOutcome
  | raise (s : ASession) : AOutcome
deriving DecidableEq, Repr

/-- Outcome of the raw-HTTP fallback call: a response with its status code and
decoded body, a timeout (line 469), or any other exception (line 472). -/
inductive BOutcome where
  | resp (status : Nat) (shop : ShopB) : BOutcome
  | timeout : BOutcome
  | exn : BOutcome
deriving DecidableEq, Repr

/-- The triple returned by `fetch_shop_items`. -/
structure FetchResult where
  flat : List FlatItem
  groups : List ShopGroup
  date : Option String
deriving DecidableEq, Repr

/-- The `requests` fallback stage (lines 377-474), continuing from the
accumulators left by the typed-client attempt: a non-200 status, a timeout or
an exception returns the explicitly empty result `([], {}, None)`
(lines 383-385, 469-474); a 200 response processes all sections and returns
the accumulated lists with the reported shop date (lines 386-468). -/
def fetchB (b : BOutcome) (acc : List FlatItem × List ShopGroup) : FetchResult :=
  match b with
  | .resp status shop =>
    if status = 200 then
      { flat := (processShopB shop acc).1, groups := (processShopB shop acc).2,
        date := shop.date }
    else { flat := [], groups := [], date := Option.none }
  | .timeout => { flat := [], groups := [], date := Option.none }
  | .exn => { flat := [], groups := [], date := Option.none }

/-- `fetch_shop_items` (lines 222-474).  The typed client is tried first; when
it completes with at least one flat item the function returns its result
(lines 369-371).  When it completes with zero flat items (line 372-373) or
raises (line 374-375), control falls into the fallback stage carrying the
same `items`/`groups` accumulators, since those are initialized once at
lines 229-230. -/
def fetch_shop_items (a : AOutcome) (b : BOutcome) : FetchResult :=
  match a with
  | .ok s =>
    if (runA s).1 = [] then fetchB b (runA s)
    else { flat := (runA s).1, groups := (runA s).2, date := s.date }
  | .raise s => fetchB b (runA s)

/- ------------------ flat export, group export and payload (lines 504-547) ------------------ -/

/-- One record of `export_items` (lines 504-517).  The record copies the flat
item's fields; `type` is `it.get("type") or infer_type_by_name(it["name"])`
(line 511). -/
structure ExportItem where
  id : String
  name : String
  image : String
  rarity : String
  price : PyVal
  expires : String
  type : String
  «section» : Option String
  group : Option String
  groupId : String
  groupPrice : PyVal
  series : Option String
deriving DecidableEq, Repr

/-- `export_items` (lines 504-517). -/
def export_items (items : List FlatItem) : List ExportItem :=
  items.map (fun it =>
    { id := it.id, name := it.name, image := it.img_url, rarity := it.rarity,
      price := it.price, expires := it.expires,
      type := (truthyOpt (some it.type)).getD (infer_type_by_name it.name),
      «section» := it.«section», group := it.group, groupId := it.groupId,
      groupPrice := it.groupPrice, series := it.series })

/-- `export_groups` (lines 520-535): per-group records with the nested member
records rebuilt field by field. -/
def export_groups (groups : List ShopGroup) : List ShopGroup :=
  groups.map (fun g =>
    { id := g.id, name := g.name, price := g.price, expires := g.expires,
      items := g.items.map (fun ti =>
        { id := ti.id, name := ti.name, image := ti.image, rarity := ti.rarity,
          type := ti.type, price := ti.price }) })

/-- The JSON payload written to `shop.json` (lines 537-544). -/
structure Payload where
  updatedAt : String
  sourceDate : Option String
  count : Nat
  ok : Bool
  items : List ExportItem
  groups : List ShopGroup
deriving DecidableEq, Repr

/-- Construction of the payload from a fetch result (lines 537-544):
`count = len(export_items)` and `ok = bool(export_items)`. -/
def mkPayload (updatedAt : String) (r : FetchResult) : Payload :=
  let ex := export_items r.flat
  { updatedAt := updatedAt, sourceDate := r.date, count := ex.length,
    ok := !ex.isEmpty, items := ex, groups := export_groups r.groups }

/- ------------------ supporting lemmas ------------------ -/

theorem pyRstrip_length_le (s : String) : (pyRstrip s).length ≤ s.length := by
  show ((s.toList.reverse.dropWhile Char.isWhitespace).reverse).length ≤ s.toList.length
  rw [List.length_reverse]
  calc (s.toList.reverse.dropWhile Char.isWhitespace).length
      ≤ s.toList.reverse.length := (List.dropWhile_sublist _).length_le
    _ = s.toList.length := List.length_reverse _

theorem pyTake_length_le (n : Nat) (s : String) : (pyTake n s).length ≤ n := by
  show (s.toList.take n).length ≤ n
  rw [List.length_take]
  exact min_le_left _ _

theorem charListLe_total (l1 l2 : List Char) :
    charListLe l1 l2 = true ∨ charListLe l2 l1 = true := by
  induction l1 generalizing l2 with
  | nil => left; rfl
  | cons a as ih =>
    cases l2 with
    | nil => right; rfl
    | cons b bs =>
      by_cases hab : a = b
      · subst hab
        simpa [charListLe] using ih bs
      · rcases Nat.lt_trichotomy a.toNat b.toNat with h | h | h
        · left; simp [charListLe, hab, h]
        · exact absurd (Char.ext (UInt32.ext h)) hab
        · right
          have hba : ¬ b = a := fun e => hab e.symm
          simp [charListLe, hba, h]

theorem charListLe_trans (l1 l2 l3 : List Char) (h12 : charListLe l1 l2 = true)
    (h23 : charListLe l2 l3 = true) : charListLe l1 l3 = true := by
  induction l1 generalizing l2 l3 with
  | nil => rfl
  | cons a as ih =>
    cases l2 with
    | nil => simp [charListLe] at h12
    | cons b bs =>
      cases l3 with
      | nil => simp [charListLe] at h23
      | cons c cs =>
        by_cases hab : a = b
        · subst hab
          simp only [charListLe, if_pos rfl] at h12
          by_cases hac : a = c
          · subst hac
            simp only [charListLe, if_pos rfl] at h23 ⊢
            exact ih bs cs h12 h23
          · simp only [charListLe, if_neg hac] at h23 ⊢
            exact h23
        · simp only [charListLe, if_neg hab, decide_eq_true_eq] at h12
          by_cases hbc : b = c
          · subst hbc
            simp [charListLe, hab, h12]
          · simp only [charListLe, if_neg hbc, decide_eq_true_eq] at h23
            by_cases hac : a = c
            · subst hac
              exact absurd (Nat.lt_trans h12 h23) (Nat.lt_irrefl _)
            · simp [charListLe, hac, Nat.lt_trans h12 h23]

theorem charListLe_antisymm (l1 l2 : List Char) (h12 : charListLe l1 l2 = true)
    (h21 : charListLe l2 l1 = true) : l1 = l2 := by
  induction l1 generalizing l2 with
  | nil =>
    cases l2 with
    | nil => rfl
    | cons b bs => simp [charListLe] at h21
  | cons a as ih =>
    cases l2 with
    | nil => simp [charListLe] at h12
    | cons b bs =>
      by_cases hab : a = b
      · subst hab
        simp only [charListLe, if_pos rfl] at h12 h21
        rw [ih bs h12 h21]
      · have hba : ¬ b = a := fun e => hab e.symm
        simp only [charListLe, if_neg hab, if_neg hba, decide_eq_true_eq] at h12 h21
        exact absurd h21 (Nat.lt_asymm h12)

instance : IsTotal String (fun a b => strLeB a b = true) :=
  ⟨fun a b => charListLe_total a.toList b.toList⟩

instance : IsTrans String (fun a b => strLeB a b = true) :=
  ⟨fun a b c => charListLe_trans a.toList b.toList c.toList⟩

instance : IsAntisymm String (fun a b => strLeB a b = true) := by
  constructor
  intro a b h1 h2
  have h := charListLe_antisymm a.toList b.toList h1 h2
  cases a; cases b
  simp only [String.toList] at h
  exact congrArg String.mk h

theorem pySorted_perm_congr (l1 l2 : List String) (h : l1.Perm l2) :
    pySorted l1 = pySorted l2 := by
  apply List.eq_of_perm_of_sorted (r := fun a b => strLeB a b = true)
  · exact (List.perm_insertionSort _ l1).trans (h.trans (List.perm_insertionSort _ l2).symm)
  · exact List.sorted_insertionSort _ l1
  · exact List.sorted_insertionSort _ l2

/- ------------------ C1 ------------------ -/

/-- C1: in the payload written to `shop.json`, `count` equals the length of
the `items` array and `ok` is true iff `count > 0`, equivalently iff the flat
items list of the fetch result is non-empty — for every fetch outcome. -/
theorem c1_count_matches_items_ok_iff_nonempty (u : String) (a : AOutcome) (b : BOutcome) :
    (mkPayload u (fetch_shop_items a b)).count = (mkPayload u (fetch_shop_items a b)).items.length ∧
    ((mkPayload u (fetch_shop_items a b)).ok = true ↔
      0 < (mkPayload u (fetch_shop_items a b)).count) ∧
    ((mkPayload u (fetch_shop_items a b)).ok = true ↔ (fetch_shop_items a b).flat ≠ []) := by
  refine ⟨rfl, ?_, ?_⟩
  · show (!(export_items (fetch_shop_items a b).flat).isEmpty) = true ↔
      0 < (export_items (fetch_shop_items a b).flat).length
    simp [List.isEmpty_iff, List.length_pos]
  · show (!(export_items (fetch_shop_items a b).flat).isEmpty) = true ↔
      (fetch_shop_items a b).flat ≠ []
    simp [List.isEmpty_iff, export_items]

/- ------------------ C4 ------------------ -/

/-- C4 counterexample: the string input `"uncommon"` has extracted
representation `"uncommon"`, which contains the canonical token `"uncommon"`,
yet `normalize_rarity` returns `"common"` (the priority scan matches
`"common"` first); and the empty-string input returns `""`, not `"common"`. -/
theorem c4_counterexample :
    rarityExtract (RarityIn.pyStr "uncommon") = some "uncommon" ∧
    pyContains "uncommon" "uncommon" = true ∧
    "uncommon" ∈ RARITY_KEYS ∧
    normalize_rarity (RarityIn.pyStr "uncommon") = "common" ∧
    "common" ≠ "uncommon" ∧
    normalize_rarity (RarityIn.pyStr "") = "" ∧
    ("" : String) ≠ "common" := by
  refine ⟨by decide, by decide, by decide, by decide, by decide, by decide, by decide⟩

theorem normalize_rarity_of_extract (r : RarityIn) (s : String)
    (hs : rarityExtract r = some s) :
    normalize_rarity r =
      match RARITY_KEYS.find? (fun k => pyContains s k) with
      | some k => k
      | _ => s := by
  unfold normalize_rarity
  rw [hs]

/-- C4 amended: for every rarity input whose extracted string representation
contains at least one canonical token, `normalize_rarity` returns the first
matching token of the fixed priority order common, uncommon, rare, epic,
legendary, mythic (so an input containing `"uncommon"` yields `"common"`);
a `None` input yields `"common"`, while an empty extracted string yields the
empty string. -/
theorem c4_first_matching_token (r : RarityIn) (s k : String)
    (hs : rarityExtract r = some s)
    (hk : RARITY_KEYS.find? (fun t => pyContains s t) = some k) :
    normalize_rarity r = k ∧ k ∈ RARITY_KEYS ∧ pyContains s k = true ∧
    normalize_rarity RarityIn.pyNone = "common" := by
  refine ⟨?_, List.mem_of_find?_eq_some hk, List.find?_some hk, rfl⟩
  rw [normalize_rarity_of_extract r s hs, hk]

/-- C4 witness: `"EFortRarity::Epic"` extracts to `"efortrarity::epic"`,
whose first matching canonical token is `"epic"`. -/
theorem c4_witness :
    normalize_rarity (RarityIn.pyStr "EFortRarity::Epic") = "epic" ∧ "epic" ∈ RARITY_KEYS :=
  ⟨(c4_first_matching_token (RarityIn.pyStr "EFortRarity::Epic") "efortrarity::epic" "epic"
      (by decide) (by decide)).1,
   (c4_first_matching_token (RarityIn.pyStr "EFortRarity::Epic") "efortrarity::epic" "epic"
      (by decide) (by decide)).2.1⟩

/- ------------------ C3 ------------------ -/

/-- C3: group-id assignment is deterministic — it is a pure function of the
offer id, the contained item ids (as an unordered collection: any permutation
of the collected ids yields the same id, thanks to the sort), the entry price
and the expiry string; and when no truthy offer id is present it equals
`safe_id` of the sorted ids joined with `"|"` concatenated with the price and
expedition strings, exactly the hash key of lines 334 and 432. -/
theorem c3_group_id_deterministic (offer : Option String) (ids ids2 : List String)
    (price : PyVal) (exp : String) (hperm : ids.Perm ids2) :
    computeGroupId offer ids price exp = computeGroupId offer ids2 price exp ∧
    (truthyOpt offer = Option.none →
      computeGroupId offer ids price exp =
        safe_id (joinSep '|' (pySorted ids) ++ "|" ++ pyStr price ++ "|" ++ exp)) := by
  constructor
  · unfold computeGroupId
    rw [pySorted_perm_congr ids ids2 hperm]
  · intro h
    unfold computeGroupId
    rw [h]

/-- C3 witness: permuting the collected ids `["b", "a"]` to `["a", "b"]`
leaves the computed group id unchanged, and with no offer id the result is
the hash of `"a|b|5|E"`. -/
theorem c3_witness :
    computeGroupId Option.none ["b", "a"] (PyVal.int 5) "E" =
      computeGroupId Option.none ["a", "b"] (PyVal.int 5) "E" ∧
    computeGroupId Option.none ["b", "a"] (PyVal.int 5) "E" =
      safe_id (joinSep '|' (pySorted ["b", "a"]) ++ "|" ++ pyStr (PyVal.int 5) ++ "|" ++ "E") :=
  ⟨(c3_group_id_deterministic Option.none ["b", "a"] ["a", "b"] (PyVal.int 5) "E"
      (List.Perm.swap "a" "b" [])).1,
   (c3_group_id_deterministic Option.none ["b", "a"] ["a", "b"] (PyVal.int 5) "E"
      (List.Perm.swap "a" "b" [])).2 rfl⟩

/- ------------------ C10 ------------------ -/

set_option maxRecDepth 8000 in
/-- C10 counterexample: a single input line of 271 characters produces a chunk
of length 271, exceeding the default budget of 270 — the packing loop never
splits an individual line. -/
theorem c10_counterexample :
    ¬ ∀ t ∈ chunk_lines_into_tweets "h" [String.mk (List.replicate 271 'x')] "f" 270,
      t.length ≤ 270 := by decide

theorem chunkStep_preserves_bound (maxc : Nat) (acc : List String × String) (line : String)
    (hline : line.length + 1 ≤ maxc)
    (h1 : ∀ t ∈ acc.1, t.length ≤ maxc) (h2 : acc.2.length ≤ maxc) :
    (∀ t ∈ (chunkStep maxc acc line).1, t.length ≤ maxc) ∧
      (chunkStep maxc acc line).2.length ≤ maxc := by
  simp only [chunkStep]
  split
  · constructor
    · intro t ht
      rcases List.mem_append.mp ht with h | h
      · exact h1 t h
      · rcases List.mem_singleton.mp h with rfl
        exact le_trans (pyRstrip_length_le _) h2
    · show (line ++ "\n").length ≤ maxc
      rw [String.length_append]
      exact hline
  · refine ⟨h1, ?_⟩
    show (acc.2 ++ (line ++ "\n")).length ≤ maxc
    rw [String.length_append]
    omega

theorem chunk_fold_bound (maxc : Nat) (lines : List String)
    (hl : ∀ l ∈ lines, l.length + 1 ≤ maxc) :
    ∀ acc : List String × String, (∀ t ∈ acc.1, t.length ≤ maxc) → acc.2.length ≤ maxc →
      (∀ t ∈ (lines.foldl (chunkStep maxc) acc).1, t.length ≤ maxc) ∧
        (lines.foldl (chunkStep maxc) acc).2.length ≤ maxc := by
  induction lines with
  | nil => intro acc h1 h2; exact ⟨h1, h2⟩
  | cons l ls ih =>
    intro acc h1 h2
    rw [List.foldl_cons]
    have hstep := chunkStep_preserves_bound maxc acc l (hl l (List.mem_cons_self l ls)) h1 h2
    exact ih (fun x hx => hl x (List.mem_cons_of_mem l hx)) _ hstep.1 hstep.2

/-- C10 amended: every chunk produced by `chunk_lines_into_tweets` is at most
`max_chars` characters long, for every header and footer, provided every input
line fits the budget together with its trailing newline
(`line.length + 1 ≤ max_chars`); a single longer line is emitted as an
oversized chunk (see the counterexample). -/
theorem c10_chunk_length_bound (header footer : String) (lines : List String) (maxc : Nat)
    (hl : ∀ l ∈ lines, l.length + 1 ≤ maxc) :
    ∀ t ∈ chunk_lines_into_tweets header lines footer maxc, t.length ≤ maxc := by
  intro t ht
  unfold chunk_lines_into_tweets at ht
  have hfold := chunk_fold_bound maxc lines hl
    ([pyTake maxc (pyRstrip header ++ "\n\n" ++ pyRstrip footer)], "")
    (by
      intro x hx
      rcases List.mem_singleton.mp hx with rfl
      exact pyTake_length_le _ _)
    (Nat.zero_le _)
  set res := lines.foldl (chunkStep maxc)
    ([pyTake maxc (pyRstrip header ++ "\n\n" ++ pyRstrip footer)], "") with hres
  by_cases hc : pyStripWs res.2 != ""
  · rw [if_pos hc] at ht
    rcases List.mem_append.mp ht with h | h
    · exact hfold.1 t h
    · rcases List.mem_singleton.mp h with rfl
      exact le_trans (pyRstrip_length_le _) hfold.2
  · rw [if_neg hc] at ht
    exact hfold.1 t ht

/-- C10 witness: two short lines under the default budget pack into one chunk
of at most 270 characters. -/
theorem c10_witness :
    "linea uno\nlinea dos" ∈ chunk_lines_into_tweets "Tienda" ["linea uno", "linea dos"] "pie" 270 ∧
    ("linea uno\nlinea dos" : String).length ≤ 270 :=
  ⟨by decide,
   c10_chunk_length_bound "Tienda" "pie" ["linea uno", "linea dos"] 270 (by decide)
     "linea uno\nlinea dos" (by decide)⟩

/- ------------------ C5 ------------------ -/

theorem upsertGroup_items_subset (gs : List ShopGroup) (gid : String) (gname : Option String)
    (gprice : PyVal) (gexp : String) (newItems : List GroupItem) :
    ∀ g ∈ upsertGroup gs gid gname gprice gexp newItems, ∀ gi ∈ g.items,
      (∃ g0 ∈ gs, gi ∈ g0.items) ∨ gi ∈ newItems := by
  induction gs with
  | nil =>
    intro g hg gi hgi
    rcases List.mem_singleton.mp hg with rfl
    exact Or.inr hgi
  | cons g0 rest ih =>
    intro g hg gi hgi
    unfold upsertGroup at hg
    by_cases hid : g0.id = gid
    · rw [if_pos hid] at hg
      rcases List.mem_cons.mp hg with rfl | hmem
      · rcases List.mem_append.mp hgi with h | h
        · exact Or.inl ⟨g0, List.mem_cons_self _ _, h⟩
        · exact Or.inr h
      · exact Or.inl ⟨g, List.mem_cons_of_mem _ hmem, hgi⟩
    · rw [if_neg hid] at hg
      rcases List.mem_cons.mp hg with rfl | hmem
      · exact Or.inl ⟨g, List.mem_cons_self _ _, hgi⟩
      · rcases ih g hmem gi hgi with ⟨g1, hg1, hgi1⟩ | h
        · exact Or.inl ⟨g1, List.mem_cons_of_mem _ hg1, hgi1⟩
        · exact Or.inr h

/-- C5: an icon whose cleaned form lacks an `http://`/`https://` scheme makes
`clean_url` return `none`, the cosmetic carrying it produces no tmp record in
either source path, and consequently every flat record and every group member
record of an entry's processing stems from a cosmetic whose icon survived
`clean_url` — so the dropped cosmetic appears in neither projection. -/
theorem c5_missing_scheme_dropped (u : UrlIn)
    (hu : schemeOk (cleanCore (unwrapStr u)) = false) :
    clean_url u = Option.none ∧
    (∀ itm : ItemB, mkUrlInB itm.icon = u → tmpItemB itm = Option.none) ∧
    (∀ itm : ItemA, itm.icon = u → tmpItemA itm = Option.none) ∧
    (∀ (sec : Option String) (acc : List FlatItem × List ShopGroup) (e : EntryB),
      (processEntryB sec acc e).1 =
        acc.1 ++ (e.items.filterMap tmpItemB).map (mkFlatB sec e) ∧
      (∀ g ∈ (processEntryB sec acc e).2, ∀ gi ∈ g.items,
        (∃ g0 ∈ acc.2, gi ∈ g0.items) ∨
          gi ∈ (e.items.filterMap tmpItemB).map mkGroupItem)) := by
  have h1 : clean_url u = Option.none := by
    unfold clean_url
    split
    · rfl
    · simp [hu]
  refine ⟨h1, ?_, ?_, ?_⟩
  · intro itm hicon
    unfold tmpItemB
    rw [hicon, h1]
  · intro itm hicon
    unfold tmpItemA
    rw [hicon, h1]
  · intro sec acc e
    refine ⟨rfl, ?_⟩
    exact upsertGroup_items_subset acc.2 (groupIdB e) (groupNameB e) (entryPriceB e)
      (expireTxtB e) _

/-- Concrete source-B cosmetic for the C5 witness: its icon has an `ftp`
scheme. -/
def c5item : ItemB :=
  { id := some "I5", templateId := Option.none, name := some "N5",
    icon := some "ftp://bad/x.png", rarity := RarityIn.pyNone, series := SeriesIn.pyNone,
    typeValue := Option.none, typeName := Option.none, finalPrice := PyVal.none,
    regularPrice := PyVal.none, price := PyVal.none }

/-- C5 witness: the `ftp` icon fails the scheme check after cleaning, so
`clean_url` rejects it and the cosmetic yields no tmp record. -/
theorem c5_witness :
    schemeOk (cleanCore (unwrapStr (UrlIn.str "ftp://bad/x.png"))) = false ∧
    clean_url (UrlIn.str "ftp://bad/x.png") = Option.none ∧
    tmpItemB c5item = Option.none :=
  ⟨by decide,
   (c5_missing_scheme_dropped (UrlIn.str "ftp://bad/x.png") (by decide)).1,
   (c5_missing_scheme_dropped (UrlIn.str "ftp://bad/x.png") (by decide)).2.1 c5item (by decide)⟩

/- ------------------ C9 ------------------ -/

/-- C9: for an entry all of whose cosmetics are dropped by the icon filter,
no flat record is added, yet the entry's group record is still created (via
the unguarded `groups.get`/insert of lines 433-441) and survives into the
grouped export with an empty member-items list. -/
theorem c9_group_without_survivors (sec : Option String)
    (acc : List FlatItem × List ShopGroup) (e : EntryB)
    (h : ∀ itm ∈ e.items, clean_url (mkUrlInB itm.icon) = Option.none) :
    (processEntryB sec acc e).1 = acc.1 ∧
    (processEntryB sec acc e).2 =
      upsertGroup acc.2 (groupIdB e) (groupNameB e) (entryPriceB e) (expireTxtB e) [] ∧
    (acc.2 = [] →
      (processEntryB sec acc e).2 =
        [{ id := groupIdB e, name := groupNameB e, price := entryPriceB e,
           expires := expireTxtB e, items := [] }] ∧
      (export_groups (processEntryB sec acc e).2).map ShopGroup.items = [[]]) := by
  have htmp : e.items.filterMap tmpItemB = [] := by
    rw [List.filterMap_eq_nil_iff]
    intro itm hitm
    unfold tmpItemB
    rw [h itm hitm]
  have hflat : (processEntryB sec acc e).1 = acc.1 := by
    unfold processEntryB
    rw [htmp]
    simp
  have hgrp : (processEntryB sec acc e).2 =
      upsertGroup acc.2 (groupIdB e) (groupNameB e) (entryPriceB e) (expireTxtB e) [] := by
    unfold processEntryB
    rw [htmp]
    rfl
  refine ⟨hflat, hgrp, ?_⟩
  intro hacc
  rw [hgrp, hacc]
  exact ⟨rfl, rfl⟩

/-- Concrete entry for the C9 witness: its only cosmetic carries the spec's
malformed icon `asset_url=\x27ftp://bad.example/x.png\x27`. -/
def c9entry : EntryB :=
  { regularPrice := PyVal.int 500, finalPrice := PyVal.none, price := PyVal.none,
    offerExpires := some "E9", expiresAt := Option.none, bundleName := Option.none,
    category := Option.none, devName := Option.none, offerId := Option.none,
    id := Option.none,
    items := [{ id := some "IX", templateId := Option.none, name := some "NX",
                icon := some "asset_url=\x27ftp://bad.example/x.png\x27",
                rarity := RarityIn.pyNone, series := SeriesIn.pyNone,
                typeValue := Option.none, typeName := Option.none,
                finalPrice := PyVal.none, regularPrice := PyVal.none,
                price := PyVal.none }] }

/-- C9 witness: processing that entry adds no flat record and creates exactly
one group whose member list is empty, also after the group export. -/
theorem c9_witness :
    (processEntryB (some "Daily") ([], []) c9entry).1 = [] ∧
    (processEntryB (some "Daily") ([], []) c9entry).2 =
      [{ id := groupIdB c9entry, name := groupNameB c9entry, price := entryPriceB c9entry,
         expires := expireTxtB c9entry, items := [] }] ∧
    (export_groups (processEntryB (some "Daily") ([], []) c9entry).2).map ShopGroup.items =
      [[]] :=
  ⟨(c9_group_without_survivors (some "Daily") ([], []) c9entry (by decide)).1,
   ((c9_group_without_survivors (some "Daily") ([], []) c9entry (by decide)).2.2 rfl).1,
   ((c9_group_without_survivors (some "Daily") ([], []) c9entry (by decide)).2.2 rfl).2⟩

/- ------------------ C7 ------------------ -/

/-- Concrete source-B entry for the C7 counterexample: entry price 1500, one
surviving cosmetic with an individual `finalPrice` of 800. -/
def c7entry : EntryB :=
  { regularPrice := PyVal.int 1500, finalPrice := PyVal.none, price := PyVal.none,
    offerExpires := some "X7", expiresAt := Option.none, bundleName := Option.none,
    category := Option.none, devName := Option.none, offerId := some "OFF7",
    id := Option.none,
    items := [{ id := some "IB", templateId := Option.none, name := some "NB",
                icon := some "https://a/b.png", rarity := RarityIn.pyStr "epic",
                series := SeriesIn.pyNone, typeValue := Option.none,
                typeName := Option.none, finalPrice := PyVal.int 800,
                regularPrice := PyVal.none, price := PyVal.none }] }

/-- C7 counterexample: in the raw-HTTP path the flat record's `price` is the
item's individual price (800), not the entry's price (1500) — line 457 prefers
`indiv_price` when it is not `None`. -/
theorem c7_counterexample :
    entryPriceB c7entry = PyVal.int 1500 ∧
    ((processEntryB Option.none ([], []) c7entry).1).map FlatItem.price = [PyVal.int 800] ∧
    ¬ ∀ r ∈ (processEntryB Option.none ([], []) c7entry).1,
        r.price = entryPriceB c7entry := by
  refine ⟨by decide, by decide, by decide⟩

/-- C7 amended: a flat record carries the entry's price in the typed-client
path always, and in the raw-HTTP path only when the cosmetic has no individual
price — otherwise the record's `price` is the item's own
`finalPrice or regularPrice or price` (line 457), while `groupPrice` carries
the entry price in both paths. -/
theorem c7_flat_price_projection (rota : Option String)
    (acc accB : List FlatItem × List ShopGroup) (e : EntryA) (sec : Option String)
    (eB : EntryB) :
    (∀ r ∈ (processEntryA rota acc e).1, r ∈ acc.1 ∨
      (r.price = e.price ∧ r.groupPrice = e.price)) ∧
    (∀ r ∈ (processEntryB sec accB eB).1, r ∈ accB.1 ∨
      ∃ itm ∈ eB.items, ∃ ti, tmpItemB itm = some ti ∧ r = mkFlatB sec eB ti ∧
        r.price = (if ti.indiv_price = PyVal.none then entryPriceB eB else ti.indiv_price) ∧
        r.groupPrice = entryPriceB eB) := by
  constructor
  · intro r hr
    unfold processEntryA at hr
    rcases List.mem_append.mp hr with h | h
    · exact Or.inl h
    · rcases List.mem_map.mp h with ⟨ti, _, rfl⟩
      exact Or.inr ⟨rfl, rfl⟩
  · intro r hr
    unfold processEntryB at hr
    rcases List.mem_append.mp hr with h | h
    · exact Or.inl h
    · rcases List.mem_map.mp h with ⟨ti, hti, rfl⟩
      rcases List.mem_filterMap.mp hti with ⟨itm, hitm, hsome⟩
      exact Or.inr ⟨itm, hitm, ti, hsome, rfl, rfl, rfl⟩

/-- Concrete typed-client entry for the C7 witness: one surviving cosmetic,
entry price 950. -/
def c7wEntryA : EntryA :=
  { price := PyVal.int 950, rawExp := some "EW", secObj := Option.none,
    bundleName := Option.none, offer_id := some "OW", offerId := Option.none,
    idAttr := Option.none,
    cosmetics := [{ id := some "IW", templateId := Option.none,
                    icon := UrlIn.str "https://w/x.png", name := some "NW",
                    rarity := RarityIn.pyStr "rare", series := SeriesIn.pyNone,
                    type := Option.none }] }

/-- The tmp record of the C7 witness cosmetic. -/
def c7wTmp : TmpItem :=
  (tmpItemA { id := some "IW", templateId := Option.none,
              icon := UrlIn.str "https://w/x.png", name := some "NW",
              rarity := RarityIn.pyStr "rare", series := SeriesIn.pyNone,
              type := Option.none }).getD
    { id := "", name := "", img_url := "", rarity := "", type := "",
      series := Option.none, indiv_price := PyVal.none }

/-- C7 witness: the flat record of the typed-client entry carries the entry
price 950. -/
theorem c7_witness :
    mkFlatA Option.none c7wEntryA c7wTmp ∈ (processEntryA Option.none ([], []) c7wEntryA).1 ∧
    (mkFlatA Option.none c7wEntryA c7wTmp ∈ ([] : List FlatItem) ∨
      ((mkFlatA Option.none c7wEntryA c7wTmp).price = c7wEntryA.price ∧
        (mkFlatA Option.none c7wEntryA c7wTmp).groupPrice = c7wEntryA.price)) :=
  ⟨by decide,
   (c7_flat_price_projection Option.none ([], []) ([], []) c7wEntryA Option.none c7entry).1
     (mkFlatA Option.none c7wEntryA c7wTmp) (by decide)⟩

/- ------------------ C2 ------------------ -/

/-- The item ids of the flat projection. -/
def flatIds (fl : List FlatItem) : List String := fl.map FlatItem.id

/-- The item ids collected across every group's member list. -/
def allGroupItemIds : List ShopGroup → List String
  | [] => []
  | g :: rest => g.items.map GroupItem.id ++ allGroupItemIds rest

theorem mem_allGroupItemIds_upsert (x : String) (gs : List ShopGroup) (gid : String)
    (gname : Option String) (gprice : PyVal) (gexp : String) (newItems : List GroupItem) :
    x ∈ allGroupItemIds (upsertGroup gs gid gname gprice gexp newItems) ↔
      x ∈ allGroupItemIds gs ∨ x ∈ newItems.map GroupItem.id := by
  induction gs with
  | nil => simp [upsertGroup, allGroupItemIds]
  | cons g rest ih =>
    unfold upsertGroup
    by_cases hid : g.id = gid
    · rw [if_pos hid]
      show x ∈ (g.items ++ newItems).map GroupItem.id ++ allGroupItemIds rest ↔ _
      simp only [List.map_append, List.mem_append, allGroupItemIds]
      tauto
    · rw [if_neg hid]
      show x ∈ g.items.map GroupItem.id ++ allGroupItemIds (upsertGroup rest _ _ _ _ _) ↔ _
      simp only [List.mem_append, ih, allGroupItemIds]
      tauto

theorem id_comp_mkFlatB (sec : Option String) (e : EntryB) :
    FlatItem.id ∘ mkFlatB sec e = TmpItem.id := rfl

theorem id_comp_mkFlatA (rota : Option String) (e : EntryA) :
    FlatItem.id ∘ mkFlatA rota e = TmpItem.id := rfl

theorem id_comp_mkGroupItem : GroupItem.id ∘ mkGroupItem = TmpItem.id := rfl

/-- The projection-consistency invariant: an id occurs in the flat list iff it
occurs in some group's member list. -/
def ProjConsistent (acc : List FlatItem × List ShopGroup) : Prop :=
  ∀ x, x ∈ flatIds acc.1 ↔ x ∈ allGroupItemIds acc.2

theorem projConsistent_processEntryB (sec : Option String) (e : EntryB)
    (acc : List FlatItem × List ShopGroup) (h : ProjConsistent acc) :
    ProjConsistent (processEntryB sec acc e) := by
  intro x
  unfold processEntryB flatIds
  simp only [List.map_append, List.mem_append, List.map_map, id_comp_mkFlatB,
    mem_allGroupItemIds_upsert, id_comp_mkGroupItem]
  have hx := h x
  unfold flatIds at hx
  tauto

theorem projConsistent_processEntryA (rota : Option String) (e : EntryA)
    (acc : List FlatItem × List ShopGroup) (h : ProjConsistent acc) :
    ProjConsistent (processEntryA rota acc e) := by
  intro x
  unfold processEntryA flatIds
  simp only [List.map_append, List.mem_append, List.map_map, id_comp_mkFlatA,
    mem_allGroupItemIds_upsert, id_comp_mkGroupItem]
  have hx := h x
  unfold flatIds at hx
  tauto

theorem projConsistent_foldB (sec : Option String) (entries : List EntryB) :
    ∀ acc, ProjConsistent acc → ProjConsistent (entries.foldl (processEntryB sec) acc) := by
  induction entries with
  | nil => intro acc h; exact h
  | cons e es ih =>
    intro acc h
    rw [List.foldl_cons]
    exact ih _ (projConsistent_processEntryB sec e acc h)

theorem projConsistent_foldA (rota : Option String) (entries : List EntryA) :
    ∀ acc, ProjConsistent acc → ProjConsistent (entries.foldl (processEntryA rota) acc) := by
  induction entries with
  | nil => intro acc h; exact h
  | cons e es ih =>
    intro acc h
    rw [List.foldl_cons]
    exact ih _ (projConsistent_processEntryA rota e acc h)

theorem projConsistent_processShopB (shop : ShopB) (acc : List FlatItem × List ShopGroup)
    (h : ProjConsistent acc) : ProjConsistent (processShopB shop acc) := by
  unfold processShopB
  generalize sectionsB shop = secs
  induction secs generalizing acc with
  | nil => exact h
  | cons ks rest ih =>
    rw [List.foldl_cons]
    apply ih
    cases hks : ks.2 with
    | none => simpa [hks] using h
    | some entries =>
      simp only [hks]
      exact projConsistent_foldB _ entries acc h

theorem projConsistent_runA (s : ASession) : ProjConsistent (runA s) := by
  unfold runA
  apply projConsistent_foldA
  intro x
  simp [flatIds, allGroupItemIds]

theorem projConsistent_fetchB (b : BOutcome) (acc : List FlatItem × List ShopGroup)
    (h : ProjConsistent acc) :
    ∀ x, x ∈ flatIds (fetchB b acc).flat ↔ x ∈ allGroupItemIds (fetchB b acc).groups := by
  intro x
  cases b with
  | resp status shop =>
    unfold fetchB
    dsimp only
    by_cases hst : status = 200
    · rw [if_pos hst]
      exact projConsistent_processShopB shop acc h x
    · rw [if_neg hst]
      simp [flatIds, allGroupItemIds]
  | timeout => simp [fetchB, flatIds, allGroupItemIds]
  | exn => simp [fetchB, flatIds, allGroupItemIds]

/-- C2: for every fetch outcome, an item id occurs in the flat projection iff
it occurs in some group's member list of the grouped projection — the union of
ids across groups equals the set of flat ids. -/
theorem c2_projection_consistency (a : AOutcome) (b : BOutcome) (x : String) :
    x ∈ flatIds (fetch_shop_items a b).flat ↔
      x ∈ allGroupItemIds (fetch_shop_items a b).groups := by
  cases a with
  | ok s =>
    unfold fetch_shop_items
    dsimp only
    by_cases hempty : (runA s).1 = []
    · rw [if_pos hempty]
      exact projConsistent_fetchB b (runA s) (projConsistent_runA s) x
    · rw [if_neg hempty]
      exact projConsistent_runA s x
  | raise s =>
    exact projConsistent_fetchB b (runA s) (projConsistent_runA s) x

/- ------------------ C6 ------------------ -/

/-- The typed-client attempt counts as failed when it raised or yielded zero
flat items (lines 369-375). -/
def sourceAFailed (a : AOutcome) : Bool :=
  match a with
  | .raise _ => true
  | .ok s => (runA s).1.isEmpty

/-- The raw-HTTP fallback counts as failed on a non-200 status, a timeout or
any other exception (lines 383-385, 469-474). -/
def sourceBFailed (b : BOutcome) : Bool :=
  match b with
  | .resp status _ => status != 200
  | .timeout => true
  | .exn => true

theorem fetchB_failed (b : BOutcome) (acc : List FlatItem × List ShopGroup)
    (hb : sourceBFailed b = true) :
    fetchB b acc = { flat := [], groups := [], date := Option.none } := by
  cases b with
  | resp status shop =>
    have hne : ¬ status = 200 := by simpa [sourceBFailed] using hb
    unfold fetchB
    dsimp only
    rw [if_neg hne]
  | timeout => rfl
  | exn => rfl

/-- C6: when the typed client raises or yields nothing and the raw fallback
fails (non-200 status, timeout, or exception), `fetch_shop_items` returns the
explicitly empty result `([], [], None)` without any error value, and the
payload is still built, with `items = []`, `groups = []`, `count = 0` and
`ok = false`. -/
theorem c6_both_sources_fail (u : String) (a : AOutcome) (b : BOutcome)
    (ha : sourceAFailed a = true) (hb : sourceBFailed b = true) :
    fetch_shop_items a b = { flat := [], groups := [], date := Option.none } ∧
    (mkPayload u (fetch_shop_items a b)).items = [] ∧
    (mkPayload u (fetch_shop_items a b)).groups = [] ∧
    (mkPayload u (fetch_shop_items a b)).count = 0 ∧
    (mkPayload u (fetch_shop_items a b)).ok = false := by
  have hmain : fetch_shop_items a b = { flat := [], groups := [], date := Option.none } := by
    cases a with
    | ok s =>
      have hempty : (runA s).1 = [] := by
        rw [← List.isEmpty_iff]
        simpa [sourceAFailed] using ha
      unfold fetch_shop_items
      dsimp only
      rw [if_pos hempty]
      exact fetchB_failed b _ hb
    | raise s => exact fetchB_failed b _ hb
  rw [hmain]
  exact ⟨rfl, rfl, rfl, rfl, rfl⟩

/-- C6 witness: a typed-client exception before any entry plus a fallback
timeout yield the empty payload with `count = 0` and `ok = false`. -/
theorem c6_witness :
    sourceAFailed (AOutcome.raise { date := Option.none, rota := Option.none, entries := [] })
        = true ∧
    sourceBFailed BOutcome.timeout = true ∧
    fetch_shop_items
        (AOutcome.raise { date := Option.none, rota := Option.none, entries := [] })
        BOutcome.timeout = { flat := [], groups := [], date := Option.none } ∧
    (mkPayload "U"
        (fetch_shop_items
          (AOutcome.raise { date := Option.none, rota := Option.none, entries := [] })
          BOutcome.timeout)).count = 0 ∧
    (mkPayload "U"
        (fetch_shop_items
          (AOutcome.raise { date := Option.none, rota := Option.none, entries := [] })
          BOutcome.timeout)).ok = false :=
  ⟨rfl, rfl,
   (c6_both_sources_fail "U"
      (AOutcome.raise { date := Option.none, rota := Option.none, entries := [] })
      BOutcome.timeout rfl rfl).1,
   (c6_both_sources_fail "U"
      (AOutcome.raise { date := Option.none, rota := Option.none, entries := [] })
      BOutcome.timeout rfl rfl).2.2.2.1,
   (c6_both_sources_fail "U"
      (AOutcome.raise { date := Option.none, rota := Option.none, entries := [] })
      BOutcome.timeout rfl rfl).2.2.2.2⟩

/- ------------------ C8 ------------------ -/

/-- Typed-client session for the C8 counterexample: its only entry's only
cosmetic carries an `ftp` icon, so the session yields zero flat items but
still registers one (empty) group. -/
def c8sess : ASession :=
  { date := some "DA", rota := Option.none,
    entries := [{ price := PyVal.int 100, rawExp := some "EA", secObj := Option.none,
                  bundleName := Option.none, offer_id := some "offA",
                  offerId := Option.none, idAttr := Option.none,
                  cosmetics := [{ id := some "IA", templateId := Option.none,
                                  icon := UrlIn.str "ftp://x", name := some "NA",
                                  rarity := RarityIn.pyStr "rare", series := SeriesIn.pyNone,
                                  type := Option.none }] }] }

/-- Raw-HTTP shop for the C8 counterexample: one featured entry with one
surviving cosmetic. -/
def c8shop : ShopB :=
  { date := some "DB",
    featured := some [{ regularPrice := PyVal.int 1500, finalPrice := PyVal.none,
                        price := PyVal.none, offerExpires := some "X8",
                        expiresAt := Option.none, bundleName := Option.none,
                        category := Option.none, devName := Option.none,
                        offerId := some "OFF8", id := Option.none,
                        items := [{ id := some "IB", templateId := Option.none,
                                    name := some "NB", icon := some "https://a/b.png",
                                    rarity := RarityIn.pyStr "epic",
                                    series := SeriesIn.pyNone, typeValue := Option.none,
                                    typeName := Option.none, finalPrice := PyVal.none,
                                    regularPrice := PyVal.none, price := PyVal.none }] }],
    specialFeatured := Option.none, specialDaily := Option.none, daily := Option.none,
    votes := Option.none, voteWinners := Option.none }

/-- C8 counterexample: with the typed client yielding zero flat items but one
empty group, and the fallback succeeding, the returned `groups` list is the
concatenation of a source-A group and a source-B group — it equals neither the
pure source-A output nor the pure source-B output, so the projections do not
all originate from a single source. -/
theorem c8_counterexample :
    (fetch_shop_items (AOutcome.ok c8sess) (BOutcome.resp 200 c8shop)).groups =
      (runA c8sess).2 ++ (processShopB c8shop ([], [])).2 ∧
    (runA c8sess).2 ≠ [] ∧
    (processShopB c8shop ([], [])).2 ≠ [] ∧
    (fetch_shop_items (AOutcome.ok c8sess) (BOutcome.resp 200 c8shop)).flat =
      (processShopB c8shop ([], [])).1 ∧
    (fetch_shop_items (AOutcome.ok c8sess) (BOutcome.resp 200 c8shop)).groups ≠
      (runA c8sess).2 ∧
    (fetch_shop_items (AOutcome.ok c8sess) (BOutcome.resp 200 c8shop)).groups ≠
      (processShopB c8shop ([], [])).2 := by
  refine ⟨by decide, by decide, by decide, by decide, by decide, by decide⟩

/-- C8 amended: the result is wholly the typed client's when that source
produced at least one flat item, and wholly the fallback's when the typed
client produced nothing at all (no items and no groups, or an exception with
nothing accumulated); but when the typed client leaves behind partial output —
e.g. empty groups from entries whose cosmetics were all dropped — the fallback
continues on the same accumulators and the grouped projection mixes both
sources (see the counterexample). -/
theorem c8_single_source_conditions (s : ASession) (b : BOutcome) :
    ((runA s).1 ≠ [] →
      fetch_shop_items (AOutcome.ok s) b =
        { flat := (runA s).1, groups := (runA s).2, date := s.date }) ∧
    (runA s = ([], []) →
      fetch_shop_items (AOutcome.ok s) b = fetchB b ([], []) ∧
      fetch_shop_items (AOutcome.raise s) b = fetchB b ([], [])) := by
  constructor
  · intro h
    unfold fetch_shop_items
    dsimp only
    rw [if_neg h]
  · intro h
    constructor
    · unfold fetch_shop_items
      dsimp only
      rw [h]
      rfl
    · show fetchB b (runA s) = fetchB b ([], [])
      rw [h]

/-- Typed-client session for the C8 witness: one entry with a surviving
cosmetic, so the typed client returns its own result and the fallback is
never consulted. -/
def c8wsess : ASession :=
  { date := some "DW", rota := Option.none,
    entries := [{ price := PyVal.int 200, rawExp := some "EW", secObj := Option.none,
                  bundleName := Option.none, offer_id := some "offW",
                  offerId := Option.none, idAttr := Option.none,
                  cosmetics := [{ id := some "IW", templateId := Option.none,
                                  icon := UrlIn.str "https://w/x.png", name := some "NW",
                                  rarity := RarityIn.pyStr "rare", series := SeriesIn.pyNone,
                                  type := Option.none }] }] }

/-- C8 witness: with at least one typed-client flat item the result is exactly
the typed-client output, whatever the fallback would have done. -/
theorem c8_witness :
    fetch_shop_items (AOutcome.ok c8wsess) BOutcome.timeout =
      { flat := (runA c8wsess).1, groups := (runA c8wsess).2, date := c8wsess.date } :=
  (c8_single_source_conditions c8wsess BOutcome.timeout).1 (by decide)
